import Mathlib

/-!
Verification of `ecs-one-off-task.py` (speedyrails/ecs-one-off-task).

The script is a sequential CLI pipeline: clone an ECS task definition,
register a modified revision, ensure a CloudWatch log group, run the task,
wait, and report the container's exit status and logs.  We shallowly embed
the value-level behaviour of the script:

* Python values flowing through the task-definition dictionaries are
  modelled by `PyVal` (strings, naturals, `None`, lists, dicts as
  association lists in insertion order).
* Python's `dict` mutations (`del d[k]`, `d.update {...}`, `d.get(k, None)`)
  become pure association-list operations; a statement that can raise an
  uncaught exception (`KeyError` on a required `del`, indexing `[0]` on an
  empty list) is modelled in the `Option` monad, `Option.none` standing for
  the crash.
* Python strings are manipulated through their character lists, so that
  `split(sep)` / `lstrip(ch)` reduce by structural recursion.
* The CloudWatch Logs service is modelled as an explicit state
  (existing group names and their retention policies) with the documented
  error conditions (`ResourceAlreadyExistsException` on re-creation,
  an invalid-parameter error for a retention period outside the allowed
  list quoted in the script's own docstring).
-/

/-- A Python value as used by the script's dictionaries: strings, ints
(only non-negative ones occur), `None`, lists, and dicts in insertion
order. -/
inductive PyVal where
  | str : String → PyVal
  | nat : Nat → PyVal
  | pyNone : PyVal
  | list : List PyVal → PyVal
  | dict : List (String × PyVal) → PyVal

/-- Lookup in an association list, Python-dict style (keys are unique in
all dictionaries the script builds). -/
def assocLookup {α : Type} (k : String) : List (String × α) → Option α
  | [] => Option.none
  | (k', v) :: rest => if k = k' then some v else assocLookup k rest

/-- `d[k] = v` on an association list: replace the value in place if the
key is present (Python dicts keep the original position), append otherwise. -/
def setAssoc {α : Type} (k : String) (v : α) : List (String × α) → List (String × α)
  | [] => [(k, v)]
  | (k', v') :: rest => if k = k' then (k, v) :: rest else (k', v') :: setAssoc k v rest

/-- `del d[k]` on an association list (the key is removed wherever it occurs). -/
def eraseAssoc {α : Type} (k : String) : List (String × α) → List (String × α)
  | [] => []
  | (k', v) :: rest => if k = k' then eraseAssoc k rest else (k', v) :: eraseAssoc k rest

/-- `d[k]` read on a `PyVal`: `Option.none` models the uncaught `KeyError`
(missing key) or `TypeError` (not a dict). -/
def PyVal.lookup? : PyVal → String → Option PyVal
  | .dict kvs, k => assocLookup k kvs
  | _, _ => Option.none

/-- The top-level keys of a dict value (empty for non-dicts). -/
def PyVal.topKeys : PyVal → List String
  | .dict kvs => kvs.map Prod.fst
  | _ => []

/-- Whether a dict value carries the given top-level key. -/
def PyVal.hasKey (v : PyVal) (k : String) : Bool :=
  (v.lookup? k).isSome

/-- Python truthiness of a `PyVal` (`if v:`). -/
def PyVal.truthy : PyVal → Bool
  | .str s => !(s == "")
  | .nat n => !(n == 0)
  | .pyNone => false
  | .list xs => !xs.isEmpty
  | .dict kvs => !kvs.isEmpty

/-- `del d[k]` where the script does not guard the statement: a missing
key (or a non-dict) is an uncaught exception, modelled as `Option.none`. -/
def pyDelRequired (v : PyVal) (k : String) : Option PyVal :=
  match v with
  | .dict kvs =>
    if (assocLookup k kvs).isSome then some (.dict (eraseAssoc k kvs)) else Option.none
  | _ => Option.none

/-- `try: del d[k] except KeyError: pass` — deleting an absent key is
tolerated, but a non-dict would still raise (`TypeError` is not caught). -/
def pyDelTolerant (v : PyVal) (k : String) : Option PyVal :=
  match v with
  | .dict kvs => some (.dict (eraseAssoc k kvs))
  | _ => Option.none

/-- `d.get(k, None)`: `None` for a missing key; a non-dict raises. -/
def pyGetD (v : PyVal) (k : String) : Option PyVal :=
  match v with
  | .dict kvs => some ((assocLookup k kvs).getD PyVal.pyNone)
  | _ => Option.none

/-- `l[0]` on a Python list; an empty list or a non-list raises. -/
def pyIndex0 : PyVal → Option PyVal
  | .list (x :: _) => some x
  | _ => Option.none

/-- Project a Python list of strings to Lean strings (used to compare
`entryPoint` contents without equality on raw `PyVal`). -/
def pyStr? : PyVal → Option String
  | .str s => some s
  | _ => Option.none

/-- Project a list of `PyVal.str` values to their strings. -/
def pyStrs? : List PyVal → Option (List String)
  | [] => some []
  | x :: xs =>
    match pyStr? x with
    | some s => (pyStrs? xs).map (fun r => s :: r)
    | Option.none => Option.none

/-- Project `PyVal.list [str s1, str s2, ...]` to `some [s1, s2, ...]`. -/
def pyStrList? : PyVal → Option (List String)
  | .list xs => pyStrs? xs
  | _ => Option.none

/-! ### Python string primitives (on character lists, so they compute) -/

/-- Python `s.split(sep)` for a one-character separator, on character
lists: split at every occurrence, keeping empty fragments.  The result is
always non-empty (`''.split(c) == ['']`). -/
def pySplitChar (c : Char) : List Char → List (List Char)
  | [] => [[]]
  | x :: xs =>
    match pySplitChar c xs with
    | [] => [[]]
    | t :: ts => if x = c then [] :: t :: ts else (x :: t) :: ts

/-- Python `s.split(sep)` for a one-character separator string, on `String`. -/
def pySplitOnChar (c : Char) (s : String) : List String :=
  (pySplitChar c s.toList).map String.mk

/-- Python `s.lstrip(ch)` for a one-character argument: drop every leading
occurrence of that character. -/
def pyLstrip (c : Char) (s : String) : String :=
  String.mk (s.toList.dropWhile (fun x => x = c))

/-- Split on a character predicate, keeping empty fragments. -/
def pySplitP (p : Char → Bool) : List Char → List (List Char)
  | [] => [[]]
  | x :: xs =>
    match pySplitP p xs with
    | [] => [[]]
    | t :: ts => if p x then [] :: t :: ts else (x :: t) :: ts

/-- Modelled from the spec: "the command-line string split on whitespace
into tokens" — maximal runs of non-whitespace characters, i.e. Python's
argument-less `str.split()`.  Used only to compare the spec's wording with
what the code (`split(' ')`) actually does. -/
def whitespaceTokens (s : String) : List String :=
  ((pySplitP (fun ch => ch.isWhitespace) s.toList).filter (fun l => !l.isEmpty)).map String.mk

/-! ### Result reporter (`ecs-one-off-task.py` lines 327-343) -/

/-- Python `x == 0` where `x` is the optional container exit code
(`None == 0` is `False`). -/
def pyEqZero : Option Int → Bool
  | some n => n == 0
  | Option.none => false

/-- Python `not x` on the optional exit code: `not None` and `not 0` are
`True`, `not n` is `False` for a non-zero integer. -/
def pyNotTruthy : Option Int → Bool
  | some n => n == 0
  | Option.none => true

/-- The script's success test, line 333:
`oneOffTaskExitCode == 0 and not oneOffTaskExitCode`. -/
def successPredicate (exitCode : Option Int) : Bool :=
  pyEqZero exitCode && pyNotTruthy exitCode

/-- Python `f"...{x}"` for the optional exit code (`None` prints as `None`). -/
def pyShowOptInt : Option Int → String
  | some n => toString n
  | Option.none => "None"

/-- Python `f"...{x}"` for an optional string. -/
def pyShowOptStr : Option String → String
  | some s => s
  | Option.none => "None"

/-- Lines printed by `printContainerOutput` after `get_log_events`
(lines 108-127): `Option.none` models `ResourceNotFoundException` (the
stream does not exist), `some events` the returned event messages. -/
def printContainerOutputLines (events : Option (List String)) : List String :=
  match events with
  | Option.none => ["Container output: None"]
  | some [] => ["Container output: None"]
  | some evs => "Container output: " :: evs

/-- The result-reporting step, lines 333-343: the printed lines and the
process exit status (`sys.exit()` is status 0, `sys.exit(1)` is 1). -/
def resultReporter (exitCode : Option Int) (exitReason stoppedReason : Option String)
    (events : Option (List String)) : List String × Nat :=
  if successPredicate exitCode then
    ("\n==> The one-off task process has finished correctly!!"
      :: printContainerOutputLines events, 0)
  else
    ("\n==> The one-off task has failed!!"
      :: ("Container exit code: " ++ pyShowOptInt exitCode)
      :: ("Container exit reason: " ++ pyShowOptStr exitReason)
      :: ("Stopped reason: " ++ pyShowOptStr stoppedReason)
      :: printContainerOutputLines events, 1)

/-! ### Log stream derivation (`printContainerOutput`, lines 101-105) -/

/-- `taskArn.split('/')[2]` — the third slash-delimited segment of the task
ARN; `Option.none` models the `IndexError` for a malformed ARN. -/
def taskIdFromArn (taskArn : String) : Option String :=
  ((pySplitChar '/' taskArn.toList)[2]?).map String.mk

/-- `logGroupName.lstrip('/') + "/" + taskId` — the derived log stream name. -/
def logStreamNameOf (logGroupName taskArn : String) : Option String :=
  (taskIdFromArn taskArn).map (fun tid => pyLstrip '/' logGroupName ++ "/" ++ tid)

/-! ### CloudWatch Logs model (`createCloudWatchLogGroup`, lines 67-90) -/

/-- The CloudWatch Logs service state: the set of existing log group names
and their retention policies (in days). -/
structure LogsState where
  groups : List String
  retention : List (String × Nat)
deriving DecidableEq

/-- Errors raised by the modelled CloudWatch Logs operations. -/
inductive LogsErr where
  | resourceAlreadyExists
  | invalidParameter
  | resourceNotFound
deriving DecidableEq

/-- The underlying client calls the script issues, recorded as a trace. -/
inductive LogsCall where
  | createLogGroup (g : String)
  | putRetentionPolicy (g : String) (d : Nat)
deriving DecidableEq

/-- `logs.create_log_group`: raises `ResourceAlreadyExistsException` when
the group exists, otherwise creates it (no retention policy yet). -/
def create_log_group (s : LogsState) (g : String) : Except LogsErr LogsState :=
  if g ∈ s.groups then .error .resourceAlreadyExists
  else .ok { groups := g :: s.groups, retention := s.retention }

/-- The retention periods CloudWatch accepts, as listed in the script's
own docstring for `createCloudWatchLogGroup` (lines 72-75). -/
def allowedRetentionDays : List Nat :=
  [1, 3, 5, 7, 14, 30, 60, 90, 120, 150, 180, 365, 400, 545, 731, 1827, 3653]

/-- `logs.put_retention_policy`: rejects a retention period outside the
allowed list, requires the group to exist, then records the policy. -/
def put_retention_policy (s : LogsState) (g : String) (d : Nat) : Except LogsErr LogsState :=
  if allowedRetentionDays.contains d = false then .error .invalidParameter
  else if g ∈ s.groups then
    .ok { groups := s.groups, retention := setAssoc g d s.retention }
  else .error .resourceNotFound

/-- The default of the `retentionDays` parameter of
`createCloudWatchLogGroup` (line 67). -/
def defaultRetentionDays : Nat := 7

/-- The string `createCloudWatchLogGroup` returns (line 90). -/
def logGroupMsg (g : String) : String :=
  "Using the '" ++ g ++ "' CloudWatch Log Group to store the containers logs"

/-- `createCloudWatchLogGroup` (lines 67-90): `create_log_group` then
`put_retention_policy`, both inside one `try` whose `except` swallows only
`ResourceAlreadyExistsException`; every other exception propagates.  The
second component records which client calls were actually issued. -/
def createCloudWatchLogGroup (s : LogsState) (logGroupName : String) (retentionDays : Nat) :
    Except LogsErr (LogsState × String) × List LogsCall :=
  match create_log_group s logGroupName with
  | .ok s1 =>
    match put_retention_policy s1 logGroupName retentionDays with
    | .ok s2 =>
      (.ok (s2, logGroupMsg logGroupName),
        [.createLogGroup logGroupName, .putRetentionPolicy logGroupName retentionDays])
    | .error .resourceAlreadyExists =>
      (.ok (s1, logGroupMsg logGroupName),
        [.createLogGroup logGroupName, .putRetentionPolicy logGroupName retentionDays])
    | .error e =>
      (.error e,
        [.createLogGroup logGroupName, .putRetentionPolicy logGroupName retentionDays])
  | .error .resourceAlreadyExists =>
    (.ok (s, logGroupMsg logGroupName), [.createLogGroup logGroupName])
  | .error e => (.error e, [.createLogGroup logGroupName])

/-- The deterministic state after a successful fresh creation: the group is
added and its retention policy recorded. -/
def afterCreate (s : LogsState) (g : String) (d : Nat) : LogsState :=
  { groups := g :: s.groups, retention := setAssoc g d s.retention }

/-! ### Task definition cloner (`createRunTaskDefinition`, lines 130-277) -/

/-- The parsed command-line options that `createRunTaskDefinition` reads
(`getOptions`, lines 346-401): `entrypoint`, `networks_id` and
`security_groups_id` are `None` when their flags are omitted;
`networks_id` / `security_groups_id` may also be empty lists
(`nargs='*'`). -/
structure RunOptions where
  cluster : String
  from_task : String
  command : List String
  entrypoint : Option String
  image : String
  task_name : String
  launch_type : String
  networks_id : Option (List String)
  security_groups_id : Option (List String)

/-- Python truthiness of an optional flag-list (`nargs='*'`): `None` and
`[]` are falsy. -/
def pyTruthyOptList (o : Option (List String)) : Bool :=
  match o with
  | Option.none => false
  | some l => !l.isEmpty

/-- Python truthiness of the optional entrypoint string. -/
def pyTruthyOptStr (o : Option String) : Bool :=
  match o with
  | Option.none => false
  | some s => !(s == "")

/-- The error printed when FARGATE is requested without network
configuration (line 154). -/
def fargateNetworkErrMsg : String :=
  "Error: for launch type 'FARGATE' the network configuration must be provided using the `--networks-id` and `--security-groups-id` flags."

/-- The remote orchestration calls `createRunTaskDefinition` issues up to
registration. -/
inductive RemoteCall where
  | describeTaskDefinition (name : String)
  | registerTaskDefinition (doc : PyVal)

/-- Outcome of `createRunTaskDefinition` up to (and including) the
`register_task_definition` call, with the trace of remote orchestration
calls issued: `usageError` is the early `sys.exit(1)` (no remote call
made), `crash` an uncaught exception while stripping a malformed describe
response, `registered` carries the document submitted for registration. -/
inductive Phase1Result where
  | usageError (calls : List RemoteCall) (msg : String) (status : Nat)
  | crash (calls : List RemoteCall)
  | registered (calls : List RemoteCall) (doc : PyVal)

/-- The remote calls a `Phase1Result` records. -/
def Phase1Result.calls : Phase1Result → List RemoteCall
  | .usageError cs _ _ => cs
  | .crash cs => cs
  | .registered cs _ => cs

/-- Whether the run ended at the FARGATE usage check. -/
def Phase1Result.isUsageError : Phase1Result → Bool
  | .usageError _ _ _ => true
  | _ => false

/-- Whether a document was submitted for registration. -/
def Phase1Result.isRegistered : Phase1Result → Bool
  | .registered _ _ => true
  | _ => false

/-- The submitted document, when registration was reached. -/
def Phase1Result.doc? : Phase1Result → Option PyVal
  | .registered _ d => some d
  | _ => Option.none

/-- Lines 162-182: strip the non-resubmittable keys from the describe
response: the unguarded `del`s crash on a malformed response, the
`try`/`except KeyError` ones tolerate absence.  Returns the stripped
`taskDefinition` sub-dictionary. -/
def stripRefResponse (refResp : PyVal) : Option PyVal := do
  let td ← refResp.lookup? "taskDefinition"
  let td ← pyDelRequired td "taskDefinitionArn"
  let td ← pyDelRequired td "revision"
  let td ← pyDelRequired td "status"
  let td ← pyDelTolerant td "requiresAttributes"
  let td ← pyDelRequired td "compatibilities"
  let _ ← pyDelRequired refResp "ResponseMetadata"
  let td ← pyDelTolerant td "registeredAt"
  let td ← pyDelTolerant td "registeredBy"
  pure td

/-- Lines 184-189: read the first container's `secrets` /
`environmentFiles` / `environment` and the task's `executionRoleArn`, each
defaulting to `None` (`[0]` on an empty container list raises).  Returns
`(execRole, secrets, envFiles, env)`. -/
def extractCarryOver (td : PyVal) : Option (PyVal × PyVal × PyVal × PyVal) := do
  let cds ← td.lookup? "containerDefinitions"
  let c0 ← pyIndex0 cds
  let secrets ← pyGetD c0 "secrets"
  let envFiles ← pyGetD c0 "environmentFiles"
  let env ← pyGetD c0 "environment"
  let execRole ← pyGetD td "executionRoleArn"
  pure (execRole, secrets, envFiles, env)

/-- Lines 162-189 combined: strip, then extract the carried-over fields. -/
def stripAndExtract (refResp : PyVal) : Option (PyVal × PyVal × PyVal × PyVal) := do
  let td ← stripRefResponse refResp
  extractCarryOver td

/-- The single container definition common to both branches of the
template (lines 195-218 and 225-248). -/
def buildContainer (opts : RunOptions) (region : String) : PyVal :=
  .dict [
    ("environmentFiles", .list []),
    ("secrets", .list []),
    ("environment", .list []),
    ("entryPoint", .list []),
    ("portMappings", .list []),
    ("command", .list (opts.command.map PyVal.str)),
    ("cpu", .nat 128),
    ("memory", .nat 400),
    ("memoryReservation", .nat 300),
    ("volumesFrom", .list []),
    ("image", .str opts.image),
    ("name", .str opts.task_name),
    ("logConfiguration", .dict [
      ("logDriver", .str "awslogs"),
      ("options", .dict [
        ("awslogs-group", .str ("/ecs/" ++ opts.task_name)),
        ("awslogs-region", .str region),
        ("awslogs-stream-prefix", .str "ecs")])])]

/-- The one-off task definition template before the optional updates
(lines 191-256): the EC2 branch versus the FARGATE branch, the latter
adding `networkMode`, `requiresCompatibilities` and task-level
`cpu`/`memory`. -/
def buildBaseDoc (opts : RunOptions) (region : String) (execRole : PyVal) : PyVal :=
  if opts.launch_type = "EC2" then
    .dict [
      ("executionRoleArn", execRole),
      ("containerDefinitions", .list [buildContainer opts region]),
      ("family", .str opts.task_name)]
  else
    .dict [
      ("executionRoleArn", execRole),
      ("containerDefinitions", .list [buildContainer opts region]),
      ("family", .str opts.task_name),
      ("networkMode", .str "awsvpc"),
      ("requiresCompatibilities", .list [.str "FARGATE"]),
      ("cpu", .str "256"),
      ("memory", .str "512")]

/-- `container.update({k: v})` on a container dict (non-dicts, which never
occur, pass through unchanged). -/
def setContainerKey (c : PyVal) (k : String) (v : PyVal) : PyVal :=
  match c with
  | .dict kvs => .dict (setAssoc k v kvs)
  | other => other

/-- Rewrite the head of a container list with `setContainerKey` (anything
that is not a non-empty list passes through unchanged). -/
def transformContainers (k : String) (v : PyVal) (x : PyVal) : PyVal :=
  match x with
  | .list (c :: rest) => PyVal.list (setContainerKey c k v :: rest)
  | other => other

/-- `oneOffTaskDef['containerDefinitions'][0].update({k: v})`: rewrite the
first container of the document, leaving every other entry alone. -/
def updateFirstContainer (doc : PyVal) (k : String) (v : PyVal) : PyVal :=
  match doc with
  | .dict kvs => .dict (kvs.map (fun p =>
      (p.1, if p.1 = "containerDefinitions" then transformContainers k v p.2 else p.2)))
  | other => other

/-- The optional updates of lines 258-269, in source order.  Note the
`environment` update (lines 268-269) is guarded by `containerEnvFiles`,
not by `containerEnv`, exactly as in the source. -/
def applyContainerUpdates (opts : RunOptions) (secrets envFiles env : PyVal)
    (base : PyVal) : PyVal :=
  let d1 := match opts.entrypoint with
    | some ep =>
      if ep = "" then base
      else updateFirstContainer base "entryPoint" (.list ((pySplitOnChar ' ' ep).map PyVal.str))
    | Option.none => base
  let d2 := if envFiles.truthy then updateFirstContainer d1 "environmentFiles" envFiles else d1
  let d3 := if secrets.truthy then updateFirstContainer d2 "secrets" secrets else d2
  let d4 := if envFiles.truthy then updateFirstContainer d3 "environment" env else d3
  d4

/-- The complete document submitted to `register_task_definition`. -/
def buildOneOffTaskDef (opts : RunOptions) (region : String)
    (execRole secrets envFiles env : PyVal) : PyVal :=
  applyContainerUpdates opts secrets envFiles env (buildBaseDoc opts region execRole)

/-- `createRunTaskDefinition` (lines 130-277) up to the registration call:
the FARGATE network check (lines 152-155) exits before any remote call;
otherwise the describe response is stripped, the new document assembled
and submitted. -/
def createRunTaskDefnModel (opts : RunOptions) (refResp : PyVal) (region : String) :
    Phase1Result :=
  if opts.launch_type == "FARGATE"
      && (!pyTruthyOptList opts.networks_id || !pyTruthyOptList opts.security_groups_id) then
    .usageError [] fargateNetworkErrMsg 1
  else
    match stripAndExtract refResp with
    | Option.none => .crash [.describeTaskDefinition opts.from_task]
    | some (execRole, secrets, envFiles, env) =>
      let doc := buildOneOffTaskDef opts region execRole secrets envFiles env
      .registered [.describeTaskDefinition opts.from_task, .registerTaskDefinition doc] doc

/-- The seven server-assigned keys the clone must not resubmit. -/
def serverAssignedKeys : List String :=
  ["taskDefinitionArn", "revision", "status", "compatibilities",
   "requiresAttributes", "registeredAt", "registeredBy"]

/-- The first container of a task-definition document
(`doc['containerDefinitions'][0]`). -/
def firstContainer (doc : PyVal) : Option PyVal :=
  (doc.lookup? "containerDefinitions").bind pyIndex0

/-- A field of the first container of a task-definition document. -/
def containerFieldOf (doc : PyVal) (k : String) : Option PyVal :=
  (firstContainer doc).bind (fun c => c.lookup? k)

/-- The `entryPoint` (or any other field) of the first container of the
submitted document, when one was submitted. -/
def docContainerField (r : Phase1Result) (k : String) : Option PyVal :=
  r.doc?.bind (fun d => containerFieldOf d k)

/-- A top-level field of the submitted document, when one was submitted. -/
def docTopField (r : Phase1Result) (k : String) : Option PyVal :=
  r.doc?.bind (fun d => d.lookup? k)

/-! ### Concrete sample inputs used by witnesses and counterexamples -/

/-- A well-formed `describe_task_definition` response for a reference
definition `web-ref` whose first container carries no secrets, environment
files or environment variables. -/
def refRespSample : PyVal :=
  .dict [
    ("taskDefinition", .dict [
      ("taskDefinitionArn", .str "arn:aws:ecs:us-east-1:123456789012:task-definition/web-ref:3"),
      ("revision", .nat 3),
      ("status", .str "ACTIVE"),
      ("compatibilities", .list [.str "EC2"]),
      ("containerDefinitions", .list [.dict [
        ("name", .str "web"),
        ("image", .str "repo/old-image:tag")]]),
      ("executionRoleArn", .str "arn:aws:iam::123456789012:role/ecsTaskExecutionRole")]),
    ("ResponseMetadata", .dict [("HTTPStatusCode", .nat 200)])]

/-- A well-formed describe response whose first container carries inline
environment variables but no environment files and no secrets. -/
def refRespEnvOnly : PyVal :=
  .dict [
    ("taskDefinition", .dict [
      ("taskDefinitionArn", .str "arn:aws:ecs:us-east-1:123456789012:task-definition/web-ref:3"),
      ("revision", .nat 3),
      ("status", .str "ACTIVE"),
      ("compatibilities", .list [.str "EC2"]),
      ("containerDefinitions", .list [.dict [
        ("name", .str "web"),
        ("image", .str "repo/old-image:tag"),
        ("environment", .list [.dict [("name", .str "FOO"), ("value", .str "1")]])]]),
      ("executionRoleArn", .str "arn:aws:iam::123456789012:role/ecsTaskExecutionRole")]),
    ("ResponseMetadata", .dict [("HTTPStatusCode", .nat 200)])]

/-- A baseline EC2 invocation: required flags only. -/
def optsEC2Sample : RunOptions :=
  { cluster := "prod-cluster"
    from_task := "web-ref"
    command := ["python", "job.py"]
    entrypoint := Option.none
    image := "repo/img:tag"
    task_name := "nightly-job"
    launch_type := "EC2"
    networks_id := Option.none
    security_groups_id := Option.none }

/-- The EC2 invocation with `--entrypoint "sh  -c"` (two spaces between
the tokens). -/
def optsEntryTwoSpaces : RunOptions :=
  { optsEC2Sample with entrypoint := some "sh  -c" }

/-- The EC2 invocation with `--entrypoint "sh -c"`. -/
def optsEntrySample : RunOptions :=
  { optsEC2Sample with entrypoint := some "sh -c" }

/-- A FARGATE invocation missing both network flags. -/
def optsFargateNoNet : RunOptions :=
  { optsEC2Sample with launch_type := "FARGATE" }

/-- A complete FARGATE invocation. -/
def optsFargateSample : RunOptions :=
  { optsEC2Sample with
      launch_type := "FARGATE"
      networks_id := some ["subnet-0abc"]
      security_groups_id := some ["sg-0abc"] }

/-! ## Helper lemmas -/

theorem successPredicate_true_iff (e : Option Int) :
    successPredicate e = true ↔ e = some 0 := by
  cases e with
  | none => simp [successPredicate, pyEqZero, pyNotTruthy]
  | some n => simp [successPredicate, pyEqZero, pyNotTruthy]

theorem assocLookup_setAssoc_self {α : Type} (k : String) (v : α) (l : List (String × α)) :
    assocLookup k (setAssoc k v l) = some v := by
  induction l with
  | nil => simp [setAssoc, assocLookup]
  | cons p rest ih =>
    by_cases h : k = p.1
    · simp [setAssoc, h, assocLookup]
    · simp [setAssoc, h, assocLookup, ih]

theorem assocLookup_setAssoc_ne {α : Type} (k k' : String) (v : α) (l : List (String × α))
    (h : k' ≠ k) : assocLookup k' (setAssoc k v l) = assocLookup k' l := by
  induction l with
  | nil => simp [setAssoc, assocLookup, h]
  | cons p rest ih =>
    by_cases hk : k = p.1
    · subst hk
      simp [setAssoc, assocLookup, h, ih]
    · by_cases hk' : k' = p.1
      · simp [setAssoc, assocLookup, hk, hk']
      · simp [setAssoc, assocLookup, hk, hk', ih]

/-! ## C1: the result reporter -/

/-- C1: for every run reaching the result-reporting step, an exit code of
exactly 0 prints the success path and terminates with process status 0;
every other value (a non-zero integer, or an absent exit code) prints the
failure path — exit code, exit reason, stop reason, then the captured
logs — and terminates with the non-zero process status 1. -/
theorem resultReporter_success_iff_exit_zero (e : Option Int) (r s : Option String)
    (ev : Option (List String)) :
    (e = some 0 → resultReporter e r s ev =
      ("\n==> The one-off task process has finished correctly!!"
        :: printContainerOutputLines ev, 0))
    ∧ (e ≠ some 0 → resultReporter e r s ev =
      ("\n==> The one-off task has failed!!"
        :: ("Container exit code: " ++ pyShowOptInt e)
        :: ("Container exit reason: " ++ pyShowOptStr r)
        :: ("Stopped reason: " ++ pyShowOptStr s)
        :: printContainerOutputLines ev, 1)) := by
  constructor
  · intro h
    subst h
    simp [resultReporter, successPredicate, pyEqZero, pyNotTruthy]
  · intro h
    have hs : successPredicate e = false := by
      cases hsp : successPredicate e with
      | false => rfl
      | true => exact absurd ((successPredicate_true_iff e).mp hsp) h
    simp [resultReporter, hs]

/-- Witness for C1 at exit code 0 (success, status 0) and at an absent
exit code (failure, status 1). -/
theorem resultReporter_success_iff_exit_zero_witness :
    resultReporter (some 0) Option.none Option.none Option.none =
      (["\n==> The one-off task process has finished correctly!!",
        "Container output: None"], 0)
    ∧ resultReporter Option.none Option.none Option.none Option.none =
      (["\n==> The one-off task has failed!!",
        "Container exit code: None",
        "Container exit reason: None",
        "Stopped reason: None",
        "Container output: None"], 1) :=
  ⟨(resultReporter_success_iff_exit_zero (some 0) Option.none Option.none Option.none).1 rfl,
   (resultReporter_success_iff_exit_zero Option.none Option.none Option.none Option.none).2
     (by decide)⟩

/-! ## C2: the success predicate -/

/-- C2 counterexample: the claim says the predicate
`exitCode == 0 and not exitCode` evaluates to `False` for every exit-code
value including 0.  At exit code 0 it evaluates to `True` (in Python
`not 0` is `True`), refuting the claim. -/
theorem successPredicate_claim_counterexample : successPredicate (some 0) = true := rfl

/-- C2 amended: the success predicate `exitCode == 0 and not exitCode` is
logically equivalent to `exitCode == 0` (true exactly when the exit code
is present and equal to zero), not to the constant `False`. -/
theorem successPredicate_eq_eqZero (e : Option Int) : successPredicate e = pyEqZero e := by
  cases e with
  | none => rfl
  | some n => simp [successPredicate, pyEqZero, pyNotTruthy]

/-! ## C7 / C10: CloudWatch log group creation -/

/-- C7: creating the log group twice with the same name does not raise on
the second call (the already-exists conflict is swallowed); on the first,
creating invocation the retention policy is set to the default of 7 days;
and an exception from the logging service other than the already-exists
conflict (here: a retention period outside the allowed list) propagates
out of `createCloudWatchLogGroup`. -/
theorem createCloudWatchLogGroup_idempotent (s : LogsState) (g : String) (d : Nat)
    (hnew : g ∉ s.groups) (hbad : allowedRetentionDays.contains d = false) :
    (createCloudWatchLogGroup s g defaultRetentionDays).1 =
      .ok (afterCreate s g defaultRetentionDays, logGroupMsg g)
    ∧ assocLookup g (afterCreate s g defaultRetentionDays).retention =
        some defaultRetentionDays
    ∧ (createCloudWatchLogGroup (afterCreate s g defaultRetentionDays) g
        defaultRetentionDays).1 =
      .ok (afterCreate s g defaultRetentionDays, logGroupMsg g)
    ∧ (createCloudWatchLogGroup s g d).1 = .error .invalidParameter := by
  refine ⟨?_, ?_, ?_, ?_⟩
  · simp [createCloudWatchLogGroup, create_log_group, put_retention_policy, hnew,
      defaultRetentionDays, allowedRetentionDays, afterCreate]
  · exact assocLookup_setAssoc_self g defaultRetentionDays s.retention
  · simp [createCloudWatchLogGroup, create_log_group, afterCreate]
  · have hd : d ∉ allowedRetentionDays := by simpa using hbad
    simp [createCloudWatchLogGroup, create_log_group, put_retention_policy, hnew, hd]

/-- Witness for C7: a fresh state, the group `/ecs/nightly-job`, and the
disallowed retention period 2. -/
theorem createCloudWatchLogGroup_idempotent_witness :
    (createCloudWatchLogGroup ⟨[], []⟩ "/ecs/nightly-job" defaultRetentionDays).1 =
      .ok (afterCreate ⟨[], []⟩ "/ecs/nightly-job" defaultRetentionDays,
        logGroupMsg "/ecs/nightly-job")
    ∧ assocLookup "/ecs/nightly-job"
        (afterCreate ⟨[], []⟩ "/ecs/nightly-job" defaultRetentionDays).retention =
        some defaultRetentionDays
    ∧ (createCloudWatchLogGroup (afterCreate ⟨[], []⟩ "/ecs/nightly-job" defaultRetentionDays)
        "/ecs/nightly-job" defaultRetentionDays).1 =
      .ok (afterCreate ⟨[], []⟩ "/ecs/nightly-job" defaultRetentionDays,
        logGroupMsg "/ecs/nightly-job")
    ∧ (createCloudWatchLogGroup ⟨[], []⟩ "/ecs/nightly-job" 2).1 = .error .invalidParameter :=
  createCloudWatchLogGroup_idempotent ⟨[], []⟩ "/ecs/nightly-job" 2 (by decide) (by decide)

/-- C10: when the group already exists, `create_log_group` raises before
`put_retention_policy` is reached, so the call trace holds only the
creation call and the state — in particular the existing retention
policy — is unchanged; when the group does not exist, the trace shows both
the creation and the retention-policy call. -/
theorem createCloudWatchLogGroup_trace (s s' : LogsState) (g g' : String) (d d' : Nat)
    (hex : g ∈ s.groups) (hnew : g' ∉ s'.groups) :
    createCloudWatchLogGroup s g d = (.ok (s, logGroupMsg g), [.createLogGroup g])
    ∧ (createCloudWatchLogGroup s' g' d').2 =
        [.createLogGroup g', .putRetentionPolicy g' d'] := by
  constructor
  · simp [createCloudWatchLogGroup, create_log_group, hex]
  · have hc : create_log_group s' g' =
        .ok { groups := g' :: s'.groups, retention := s'.retention } := by
      simp [create_log_group, hnew]
    simp only [createCloudWatchLogGroup, hc]
    split <;> rfl

/-- Witness for C10: a state already holding `/ecs/nightly-job`, and a
fresh state for the creating case. -/
theorem createCloudWatchLogGroup_trace_witness :
    createCloudWatchLogGroup ⟨["/ecs/nightly-job"], [("/ecs/nightly-job", 14)]⟩
        "/ecs/nightly-job" 7 =
      (.ok (⟨["/ecs/nightly-job"], [("/ecs/nightly-job", 14)]⟩,
        logGroupMsg "/ecs/nightly-job"), [.createLogGroup "/ecs/nightly-job"])
    ∧ (createCloudWatchLogGroup ⟨[], []⟩ "/ecs/other" 7).2 =
        [.createLogGroup "/ecs/other", .putRetentionPolicy "/ecs/other" 7] :=
  createCloudWatchLogGroup_trace ⟨["/ecs/nightly-job"], [("/ecs/nightly-job", 14)]⟩ ⟨[], []⟩
    "/ecs/nightly-job" "/ecs/other" 7 7 (by decide) (by decide)

/-! ## C8: log stream name derivation -/

/-- C8: for every task ARN whose third slash-delimited segment is the task
ID, and every log-group path consisting of a leading slash followed by a
slash-free-prefix remainder, the derived log stream name is the group path
without its leading slash, then `/`, then the task ID. -/
theorem logStreamNameOf_spec (rest tid : List Char) (taskArn : String)
    (hrest : rest.head? ≠ some '/')
    (htid : (pySplitChar '/' taskArn.toList)[2]? = some tid) :
    logStreamNameOf (String.mk ('/' :: rest)) taskArn =
      some (String.mk rest ++ "/" ++ String.mk tid) := by
  have hdrop : List.dropWhile (fun x => x = '/') ('/' :: rest) = rest := by
    rw [List.dropWhile_cons]
    simp only [decide_eq_true_eq, if_pos rfl]
    cases rest with
    | nil => rfl
    | cons y ys =>
      rw [List.dropWhile_cons]
      have hy : y ≠ '/' := by
        intro h
        exact hrest (by simp [h])
      simp [hy]
  have htid' : (pySplitChar '/' taskArn.data)[2]? = some tid := htid
  simp [logStreamNameOf, taskIdFromArn, pyLstrip, String.toList, hdrop, htid']

/-- Witness for C8: the spec's example ARN
`arn:aws:ecs:region:acct:task/cluster-name/abcd1234` with log group
`/ecs/my-task` yields stream name `ecs/my-task/abcd1234`. -/
theorem logStreamNameOf_spec_witness :
    logStreamNameOf (String.mk ('/' :: "ecs/my-task".toList))
        "arn:aws:ecs:region:acct:task/cluster-name/abcd1234" =
      some (String.mk "ecs/my-task".toList ++ "/" ++ String.mk "abcd1234".toList) :=
  logStreamNameOf_spec "ecs/my-task".toList "abcd1234".toList
    "arn:aws:ecs:region:acct:task/cluster-name/abcd1234" (by decide) (by decide)

/-! ## Lemmas about the cloner's dictionary operations -/

theorem assocLookup_mapValueAt {α : Type} (tk : String) (g : α → α) (k : String)
    (l : List (String × α)) :
    assocLookup k (l.map (fun p => (p.1, if p.1 = tk then g p.2 else p.2))) =
      if k = tk then (assocLookup k l).map g else assocLookup k l := by
  induction l with
  | nil => simp [assocLookup]
  | cons p rest ih =>
    obtain ⟨q, w⟩ := p
    by_cases hk : k = q
    · subst hk
      by_cases hq : k = tk <;> simp [assocLookup, hq]
    · simp [assocLookup, hk, ih]

theorem lookup?_updateFirstContainer (doc : PyVal) (k : String) (v : PyVal) (k' : String) :
    (updateFirstContainer doc k v).lookup? k' =
      if k' = "containerDefinitions" then
        (doc.lookup? k').map (transformContainers k v)
      else doc.lookup? k' := by
  cases doc with
  | dict kvs =>
    show assocLookup k' (kvs.map (fun p =>
        (p.1, if p.1 = "containerDefinitions" then transformContainers k v p.2 else p.2))) = _
    rw [assocLookup_mapValueAt]
    rfl
  | str s => simp [updateFirstContainer, PyVal.lookup?]
  | nat n => simp [updateFirstContainer, PyVal.lookup?]
  | pyNone => simp [updateFirstContainer, PyVal.lookup?]
  | list xs => simp [updateFirstContainer, PyVal.lookup?]

theorem topKeys_updateFirstContainer (doc : PyVal) (k : String) (v : PyVal) :
    (updateFirstContainer doc k v).topKeys = doc.topKeys := by
  cases doc with
  | dict kvs =>
    show (kvs.map _).map Prod.fst = kvs.map Prod.fst
    rw [List.map_map]
    rfl
  | str s => rfl
  | nat n => rfl
  | pyNone => rfl
  | list xs => rfl

theorem firstContainer_updateFirstContainer (doc : PyVal) (k : String) (v : PyVal) :
    firstContainer (updateFirstContainer doc k v) =
      (firstContainer doc).map (fun c => setContainerKey c k v) := by
  unfold firstContainer
  rw [lookup?_updateFirstContainer, if_pos rfl]
  cases h : doc.lookup? "containerDefinitions" with
  | none => rfl
  | some x =>
    cases x with
    | list xs => cases xs <;> rfl
    | str s => rfl
    | nat n => rfl
    | pyNone => rfl
    | dict kvs => rfl

theorem lookup?_setContainerKey_ne (c : PyVal) (k : String) (v : PyVal) (k' : String)
    (h : k' ≠ k) : (setContainerKey c k v).lookup? k' = c.lookup? k' := by
  cases c with
  | dict kvs => exact assocLookup_setAssoc_ne k k' v kvs h
  | str s => rfl
  | nat n => rfl
  | pyNone => rfl
  | list xs => rfl

theorem containerFieldOf_updateFirstContainer_ne (doc : PyVal) (k : String) (v : PyVal)
    (k' : String) (h : k' ≠ k) :
    containerFieldOf (updateFirstContainer doc k v) k' = containerFieldOf doc k' := by
  unfold containerFieldOf
  rw [firstContainer_updateFirstContainer]
  cases firstContainer doc with
  | none => rfl
  | some c =>
    show ((setContainerKey c k v).lookup? k') = c.lookup? k'
    exact lookup?_setContainerKey_ne c k v k' h

theorem containerFieldOf_applyContainerUpdates_ne (opts : RunOptions)
    (secrets envFiles env base : PyVal) (k : String)
    (h1 : k ≠ "entryPoint") (h2 : k ≠ "environmentFiles") (h3 : k ≠ "secrets")
    (h4 : k ≠ "environment") :
    containerFieldOf (applyContainerUpdates opts secrets envFiles env base) k =
      containerFieldOf base k := by
  unfold applyContainerUpdates
  cases hep : opts.entrypoint with
  | none =>
    simp only []
    repeat' split
    all_goals simp [containerFieldOf_updateFirstContainer_ne, h1, h2, h3, h4]
  | some ep =>
    simp only []
    repeat' split
    all_goals simp [containerFieldOf_updateFirstContainer_ne, h1, h2, h3, h4]

theorem lookup?_applyContainerUpdates_ne (opts : RunOptions)
    (secrets envFiles env base : PyVal) (k : String) (h : k ≠ "containerDefinitions") :
    (applyContainerUpdates opts secrets envFiles env base).lookup? k = base.lookup? k := by
  unfold applyContainerUpdates
  cases hep : opts.entrypoint with
  | none =>
    simp only []
    repeat' split
    all_goals simp [lookup?_updateFirstContainer, h]
  | some ep =>
    simp only []
    repeat' split
    all_goals simp [lookup?_updateFirstContainer, h]

theorem topKeys_applyContainerUpdates (opts : RunOptions)
    (secrets envFiles env base : PyVal) :
    (applyContainerUpdates opts secrets envFiles env base).topKeys = base.topKeys := by
  unfold applyContainerUpdates
  cases hep : opts.entrypoint with
  | none =>
    simp only []
    repeat' split
    all_goals simp [topKeys_updateFirstContainer]
  | some ep =>
    simp only []
    repeat' split
    all_goals simp [topKeys_updateFirstContainer]

theorem firstContainer_buildBaseDoc (opts : RunOptions) (region : String) (execRole : PyVal) :
    firstContainer (buildBaseDoc opts region execRole) = some (buildContainer opts region) := by
  unfold buildBaseDoc
  split <;> simp [firstContainer, PyVal.lookup?, assocLookup, pyIndex0]

theorem topKeys_buildBaseDoc (opts : RunOptions) (region : String) (execRole : PyVal) :
    (buildBaseDoc opts region execRole).topKeys =
      if opts.launch_type = "EC2" then
        ["executionRoleArn", "containerDefinitions", "family"]
      else
        ["executionRoleArn", "containerDefinitions", "family", "networkMode",
         "requiresCompatibilities", "cpu", "memory"] := by
  unfold buildBaseDoc
  split <;> simp [PyVal.topKeys]

theorem hasKey_buildOneOffTaskDef_banned (opts : RunOptions) (region : String)
    (er se ef en : PyVal) (k : String) (hk : k ∈ serverAssignedKeys) :
    (buildOneOffTaskDef opts region er se ef en).hasKey k = false := by
  simp only [serverAssignedKeys, List.mem_cons, List.not_mem_nil, or_false] at hk
  have hne : k ≠ "containerDefinitions" := by
    rcases hk with rfl | rfl | rfl | rfl | rfl | rfl | rfl <;> decide
  unfold buildOneOffTaskDef PyVal.hasKey
  rw [lookup?_applyContainerUpdates_ne _ _ _ _ _ _ hne]
  unfold buildBaseDoc
  rcases hk with rfl | rfl | rfl | rfl | rfl | rfl | rfl <;>
    split <;> simp [PyVal.lookup?, assocLookup]

/-! ## C4: the FARGATE network validation -/

/-- C4: with launch type FARGATE and an absent or empty network-identifier
or security-group list, the run stops at the usage check — the error
message is printed, the process exits with status 1, and the call trace is
empty, i.e. no remote orchestration call was made; with launch type EC2
and both lists omitted, the run passes the validation. -/
theorem fargateNetworkValidation (optsF optsE : RunOptions) (refF refE : PyVal)
    (rgF rgE : String)
    (hF : optsF.launch_type = "FARGATE")
    (hmiss : pyTruthyOptList optsF.networks_id = false ∨
      pyTruthyOptList optsF.security_groups_id = false)
    (hE : optsE.launch_type = "EC2")
    (_hn : optsE.networks_id = Option.none) (_hs : optsE.security_groups_id = Option.none) :
    createRunTaskDefnModel optsF refF rgF = .usageError [] fargateNetworkErrMsg 1
    ∧ (createRunTaskDefnModel optsE refE rgE).isUsageError = false := by
  constructor
  · unfold createRunTaskDefnModel
    have hc : (optsF.launch_type == "FARGATE") = true := by rw [hF]; rfl
    rcases hmiss with hm | hm <;> simp [hc, hm]
  · unfold createRunTaskDefnModel
    have hc : (optsE.launch_type == "FARGATE") = false := by rw [hE]; rfl
    simp only [hc, Bool.false_and, Bool.false_eq_true, if_false]
    split <;> rfl

/-- Witness for C4: a FARGATE invocation with both network flags omitted
stops with the usage error and an empty call trace; the EC2 invocation
with both flags omitted passes validation. -/
theorem fargateNetworkValidation_witness :
    createRunTaskDefnModel optsFargateNoNet refRespSample "us-east-1" =
      .usageError [] fargateNetworkErrMsg 1
    ∧ (createRunTaskDefnModel optsEC2Sample refRespSample "us-east-1").isUsageError = false :=
  fargateNetworkValidation optsFargateNoNet optsEC2Sample refRespSample refRespSample
    "us-east-1" "us-east-1" rfl (Or.inl rfl) rfl rfl rfl

/-! ## C5: server-assigned fields are never resubmitted -/

/-- C5: whatever the reference task definition and the options, the
document submitted to `register_task_definition` carries none of the
server-assigned keys `taskDefinitionArn`, `revision`, `status`,
`compatibilities`, `requiresAttributes`, `registeredAt`, `registeredBy`. -/
theorem registeredDoc_omits_server_keys (opts : RunOptions) (refResp : PyVal)
    (region : String) :
    serverAssignedKeys.all (fun k =>
      Option.all (fun d => !(d.hasKey k))
        (createRunTaskDefnModel opts refResp region).doc?) = true := by
  rw [List.all_eq_true]
  intro k hk
  unfold createRunTaskDefnModel
  split
  · rfl
  · split
    · rfl
    · simp only [Phase1Result.doc?, Option.all]
      rw [hasKey_buildOneOffTaskDef_banned _ _ _ _ _ _ k hk]
      rfl

/-! ## C9: fixed resources in the FARGATE branch -/

theorem containerFieldOf_buildBaseDoc (opts : RunOptions) (region : String)
    (execRole : PyVal) (k : String) :
    containerFieldOf (buildBaseDoc opts region execRole) k =
      (buildContainer opts region).lookup? k := by
  unfold containerFieldOf
  rw [firstContainer_buildBaseDoc]
  rfl

theorem model_registered_doc (opts : RunOptions) (refResp : PyVal) (region : String)
    (hreg : (createRunTaskDefnModel opts refResp region).isRegistered = true) :
    ∃ er se ef en, stripAndExtract refResp = some (er, se, ef, en) ∧
      (createRunTaskDefnModel opts refResp region).doc? =
        some (buildOneOffTaskDef opts region er se ef en) := by
  unfold createRunTaskDefnModel at hreg ⊢
  split at hreg
  · exact absurd hreg (by simp [Phase1Result.isRegistered])
  · rename_i hcond
    split at hreg
    · exact absurd hreg (by simp [Phase1Result.isRegistered])
    · rename_i x er se ef en heq
      rw [if_neg hcond]
      exact ⟨er, se, ef, en, heq, rfl⟩

/-- C9: when the launch type is FARGATE, the registered single-container
definition fixes the container-level `cpu` to 128, `memory` to 400 and
`memoryReservation` to 300 — identical to the EC2 template — in addition
to the task-level `cpu` `"256"` and `memory` `"512"`. -/
theorem fargate_fixed_resources (opts : RunOptions) (refResp : PyVal) (region : String)
    (hF : opts.launch_type = "FARGATE")
    (hreg : (createRunTaskDefnModel opts refResp region).isRegistered = true) :
    docContainerField (createRunTaskDefnModel opts refResp region) "cpu" =
      some (.nat 128)
    ∧ docContainerField (createRunTaskDefnModel opts refResp region) "memory" =
      some (.nat 400)
    ∧ docContainerField (createRunTaskDefnModel opts refResp region) "memoryReservation" =
      some (.nat 300)
    ∧ docTopField (createRunTaskDefnModel opts refResp region) "cpu" = some (.str "256")
    ∧ docTopField (createRunTaskDefnModel opts refResp region) "memory" = some (.str "512") := by
  obtain ⟨er, se, ef, en, heq, hdoc⟩ := model_registered_doc opts refResp region hreg
  have hE : ¬ opts.launch_type = "EC2" := by rw [hF]; decide
  have hcf : ∀ k, k ≠ "entryPoint" → k ≠ "environmentFiles" → k ≠ "secrets" →
      k ≠ "environment" →
      docContainerField (createRunTaskDefnModel opts refResp region) k =
        (buildContainer opts region).lookup? k := by
    intro k u1 u2 u3 u4
    unfold docContainerField
    rw [hdoc]
    show containerFieldOf (buildOneOffTaskDef opts region er se ef en) k = _
    unfold buildOneOffTaskDef
    rw [containerFieldOf_applyContainerUpdates_ne _ _ _ _ _ _ u1 u2 u3 u4]
    rw [containerFieldOf_buildBaseDoc]
  have htf : ∀ k, k ≠ "containerDefinitions" →
      docTopField (createRunTaskDefnModel opts refResp region) k =
        (buildBaseDoc opts region er).lookup? k := by
    intro k u
    unfold docTopField
    rw [hdoc]
    show (buildOneOffTaskDef opts region er se ef en).lookup? k = _
    unfold buildOneOffTaskDef
    rw [lookup?_applyContainerUpdates_ne _ _ _ _ _ _ u]
  refine ⟨?_, ?_, ?_, ?_, ?_⟩
  · rw [hcf "cpu" (by decide) (by decide) (by decide) (by decide)]
    simp [buildContainer, PyVal.lookup?, assocLookup]
  · rw [hcf "memory" (by decide) (by decide) (by decide) (by decide)]
    simp [buildContainer, PyVal.lookup?, assocLookup]
  · rw [hcf "memoryReservation" (by decide) (by decide) (by decide) (by decide)]
    simp [buildContainer, PyVal.lookup?, assocLookup]
  · rw [htf "cpu" (by decide)]
    unfold buildBaseDoc
    rw [if_neg hE]
    simp [PyVal.lookup?, assocLookup]
  · rw [htf "memory" (by decide)]
    unfold buildBaseDoc
    rw [if_neg hE]
    simp [PyVal.lookup?, assocLookup]

/-- Witness for C9: the complete FARGATE invocation against the sample
reference definition registers a document with the fixed container and
task-level resources. -/
theorem fargate_fixed_resources_witness :
    docContainerField (createRunTaskDefnModel optsFargateSample refRespSample "us-east-1")
        "cpu" = some (.nat 128)
    ∧ docContainerField (createRunTaskDefnModel optsFargateSample refRespSample "us-east-1")
        "memory" = some (.nat 400)
    ∧ docContainerField (createRunTaskDefnModel optsFargateSample refRespSample "us-east-1")
        "memoryReservation" = some (.nat 300)
    ∧ docTopField (createRunTaskDefnModel optsFargateSample refRespSample "us-east-1")
        "cpu" = some (.str "256")
    ∧ docTopField (createRunTaskDefnModel optsFargateSample refRespSample "us-east-1")
        "memory" = some (.str "512") :=
  fargate_fixed_resources optsFargateSample refRespSample "us-east-1" rfl rfl

/-! ## C6: the entrypoint split -/

theorem containerFieldOf_update_buildBaseDoc_self (opts : RunOptions) (region : String)
    (er v : PyVal) (k : String) :
    containerFieldOf (updateFirstContainer (buildBaseDoc opts region er) k v) k = some v := by
  unfold containerFieldOf
  rw [firstContainer_updateFirstContainer, firstContainer_buildBaseDoc]
  show (setContainerKey (buildContainer opts region) k v).lookup? k = some v
  exact assocLookup_setAssoc_self k v _

/-- C6 counterexample: with `--entrypoint "sh  -c"` (two spaces), the
registered container's `entryPoint` is `["sh", "", "-c"]` — the string
split at every single space, keeping the empty token — while the claim's
"split on whitespace into tokens" gives `["sh", "-c"]`; the two differ, so
the claim as stated is false. -/
theorem entrypoint_whitespace_claim_counterexample :
    (docContainerField (createRunTaskDefnModel optsEntryTwoSpaces refRespSample "us-east-1")
        "entryPoint").bind pyStrList? = some ["sh", "", "-c"]
    ∧ whitespaceTokens "sh  -c" = ["sh", "-c"]
    ∧ (["sh", "", "-c"] : List String) ≠ ["sh", "-c"] :=
  ⟨rfl, rfl, by decide⟩

/-- C6 amended: for every non-empty entrypoint string supplied on the
command line, the registered container's `entryPoint` equals the string
split at every single space character (Python's `split(' ')`, which keeps
empty tokens between consecutive spaces and does not split at other
whitespace); in particular `"sh -c"` yields `["sh", "-c"]`. -/
theorem entrypoint_split_on_single_space (opts : RunOptions) (refResp : PyVal)
    (region : String) (s : String) (hep : opts.entrypoint = some s) (hne : ¬ s = "")
    (hreg : (createRunTaskDefnModel opts refResp region).isRegistered = true) :
    docContainerField (createRunTaskDefnModel opts refResp region) "entryPoint" =
      some (.list ((pySplitOnChar ' ' s).map PyVal.str)) := by
  obtain ⟨er, se, ef, en, heq, hdoc⟩ := model_registered_doc opts refResp region hreg
  unfold docContainerField
  rw [hdoc]
  show containerFieldOf (buildOneOffTaskDef opts region er se ef en) "entryPoint" = _
  unfold buildOneOffTaskDef applyContainerUpdates
  simp only [hep]
  rw [if_neg hne]
  repeat' split
  all_goals simp [containerFieldOf_updateFirstContainer_ne,
    containerFieldOf_update_buildBaseDoc_self]

/-- Witness for C6 (amended): `--entrypoint "sh -c"` registers
`entryPoint = ["sh", "-c"]`, the spec's example. -/
theorem entrypoint_split_on_single_space_witness :
    docContainerField (createRunTaskDefnModel optsEntrySample refRespSample "us-east-1")
        "entryPoint" = some (.list [.str "sh", .str "-c"]) :=
  entrypoint_split_on_single_space optsEntrySample refRespSample "us-east-1" "sh -c"
    rfl (by decide) rfl

/-! ## C3: inline environment variables are dropped without env files -/

/-- C3: the reference definition `refRespEnvOnly` carries inline
environment variables in its first container (first conjunct: the cloner
reads them), yet — because the `environment` update at lines 268-269 is
guarded by `containerEnvFiles` instead of `containerEnv` — the registered
clone's `environment` stays the empty list (second conjunct), so the
inline environment variables are not carried forward when no
environment-file references are present. -/
theorem environment_not_carried_forward :
    (stripAndExtract refRespEnvOnly).map (fun q => q.2.2.2) =
      some (.list [.dict [("name", PyVal.str "FOO"), ("value", PyVal.str "1")]])
    ∧ docContainerField (createRunTaskDefnModel optsEC2Sample refRespEnvOnly "us-east-1")
        "environment" = some (.list []) :=
  ⟨rfl, rfl⟩
